import Mathlib

/-!
Verification of the Lic-Backend SSR pipeline (homePageSSR.js and its
near-duplicate copies) and of the ratings API endpoint (server.js).

The JavaScript source is shallowly embedded: strings are Lean `String`s
(lists of characters), JS numbers are `Rat`, the MongoDB collaborator is a
record holding the results of the two queries the aggregator issues plus a
failure flag, and the `crypto`/`Date` runtime facilities are abstract
function parameters.
-/

set_option maxHeartbeats 1000000

/-- The apostrophe character `'` (U+0027). -/
def squote : Char := Char.ofNat 39

/-- A JavaScript value that is either a number or a string: the
`averageRating` field holds a string (`toFixed(1)`) on the aggregator's
success path but the number `0` on its failure path. -/
inductive JsVal where
  | num (q : Rat)
  | str (s : String)
deriving DecidableEq, Repr

/-- One stored review, as projected by `fetchRatingsAndReviews`
(`{ username, comment, createdAt }`); `createdAt` is the epoch-millisecond
timestamp of the underlying `Date`. -/
structure Review where
  username : String
  comment : String
  createdAt : Nat
deriving DecidableEq, Repr

/-- The derived aggregate (`averageRating`, `ratingCount`, `reviews`)
returned by `fetchRatingsAndReviews`. -/
structure AggregateSnapshot where
  averageRating : JsVal
  ratingCount : Nat
  reviews : List Review
deriving DecidableEq, Repr

/-- The MongoDB collaborator as seen by the aggregator: the result of
`LICRating.find()` (the `rating` field of every stored rating), the result
of `LICReview.find().sort({ createdAt: -1 }).limit(3)` (already sorted and
limited by the store), and a flag modelling a rejected query. -/
structure LICStore where
  ratings : List Rat
  topReviews : List Review
  fails : Bool
deriving DecidableEq, Repr

/-- External runtime facilities used by the handler: `crypto`'s MD5 hex
digest and `Date.prototype.toISOString`. Both are outside the repository,
so they are abstract parameters. -/
structure Runtime where
  md5Hex : String → String
  toISOString : Nat → String

/- ## HTML escaper -/

/-- `str.replace(/c/g, w)` for a single character pattern. -/
def replaceChar (c : Char) (w : List Char) : List Char → List Char
  | [] => []
  | x :: xs => (if x = c then w else [x]) ++ replaceChar c w xs

def wAmp : List Char := ['&', 'a', 'm', 'p', ';']
def wLt : List Char := ['&', 'l', 't', ';']
def wGt : List Char := ['&', 'g', 't', ';']
def wQuot : List Char := ['&', 'q', 'u', 'o', 't', ';']
def wNum39 : List Char := ['&', '#', '3', '9', ';']
def wApos : List Char := ['&', 'a', 'p', 'o', 's', ';']

/-- The replacement chain of the `escapeHTML` in `src/unnamed/part_000`
(and `part_001`): `&`→`&amp;`, `<`→`&lt;`, `>`→`&gt;`, `"`→`&quot;`,
`'`→`&#39;`, applied in that order. -/
def escChain (l : List Char) : List Char :=
  replaceChar squote wNum39
    (replaceChar '"' wQuot
      (replaceChar '>' wGt
        (replaceChar '<' wLt
          (replaceChar '&' wAmp l))))

/-- `escapeHTML` from `src/unnamed/part_000` lines 13-21 (identical in
`part_001`): falsy input yields the empty string, otherwise the five
replacements are applied in order. Non-string inputs are excluded by
typing. -/
def escapeHTML (s : String) : String :=
  if s = "" then "" else String.mk (escChain s.data)

/-- The replacement chain of the `escapeHTML` in `src/homePageSSR.js`
lines 12-15: only `<`, `>`, `"`, `'` are replaced (`'`→`&apos;`); the
`&` replacement is absent. -/
def escChainNoAmp (l : List Char) : List Char :=
  replaceChar squote wApos
    (replaceChar '"' wQuot
      (replaceChar '>' wGt
        (replaceChar '<' wLt l)))

/-- `escapeHTML` from `src/homePageSSR.js` lines 12-15. -/
def escapeHTMLNoAmp (s : String) : String :=
  if s = "" then "" else String.mk (escChainNoAmp s.data)

/-- A string "contains none of the five reserved characters unescaped":
no raw `<`, `>`, `"`, `'` occurs, and every `&` begins one of the entities
`&amp;` `&apos;` `&lt;` `&gt;` `&quot;` `&#39;`. -/
def isFullyEscaped : List Char → Bool
  | [] => true
  | c :: rest =>
    if c = '&' then
      match rest with
      | 'a' :: 'm' :: 'p' :: ';' :: r => isFullyEscaped r
      | 'a' :: 'p' :: 'o' :: 's' :: ';' :: r => isFullyEscaped r
      | 'l' :: 't' :: ';' :: r => isFullyEscaped r
      | 'g' :: 't' :: ';' :: r => isFullyEscaped r
      | 'q' :: 'u' :: 'o' :: 't' :: ';' :: r => isFullyEscaped r
      | '#' :: '3' :: '9' :: ';' :: r => isFullyEscaped r
      | _ => false
    else if c = '<' ∨ c = '>' ∨ c = '"' ∨ c = squote then false
    else isFullyEscaped rest

/-- Per-character escaping table realised by the full chain. -/
def escChar (c : Char) : List Char :=
  if c = '&' then wAmp
  else if c = '<' then wLt
  else if c = '>' then wGt
  else if c = '"' then wQuot
  else if c = squote then wNum39
  else [c]

/-- Character-wise application of the escaping table. -/
def escAll : List Char → List Char
  | [] => []
  | x :: xs => escChar x ++ escAll xs

/- ## Rating/review aggregator -/

/-- `ratings.filter(r => r.rating >= 1 && r.rating <= 5)` from
`fetchRatingsAndReviews`. -/
def validRatings (ratings : List Rat) : List Rat :=
  ratings.filter fun r => decide (1 ≤ r) && decide (r ≤ 5)

/-- The numeric average computed by `fetchRatingsAndReviews`:
`validRatings.length ? sum / length : 0`. -/
def averageRatingVal (ratings : List Rat) : Rat :=
  if (validRatings ratings).length = 0 then 0
  else (validRatings ratings).sum / (validRatings ratings).length

/-- Digit-string to number, most significant digit first. -/
def digitsToNat (l : List Char) : Nat :=
  l.foldl (fun a c => 10 * a + (c.toNat - 48)) 0

/-- Split a character list at the first `.`, if any. -/
def breakDot : List Char → List Char × Option (List Char)
  | [] => ([], none)
  | c :: cs =>
    if c = '.' then ([], some cs)
    else
      let r := breakDot cs
      (c :: r.1, r.2)

/-- JS `ToNumber` on strings, modelled for the nonnegative decimal
numerals this program produces (the outputs of `toFixed(1)`). -/
def toNumber1 (s : String) : Rat :=
  match breakDot s.data with
  | (a, none) => (digitsToNat a : Rat)
  | (a, some b) => (digitsToNat a : Rat) + (digitsToNat b : Rat) / 10 ^ b.length

/-- Render `n/10` as the string `"<n/10>.<n%10>"`. -/
def fixed1Str (n : Nat) : String :=
  toString (n / 10) ++ "." ++ toString (n % 10)

/-- `Number.prototype.toFixed(1)`, modelled for nonnegative finite values:
the rendered numerator is the integer closest to `10*x`, ties toward the
larger, i.e. `⌊10*x + 1/2⌋`. -/
def toFixed1 (x : Rat) : String :=
  fixed1Str (⌊10 * x + 1 / 2⌋).toNat

/-- `fetchRatingsAndReviews` from `src/unnamed/part_000` lines 24-45
(identical in `homePageSSR.js` and `part_001`): filters ratings to [1,5],
averages with a zero-length guard, formats with `toFixed(1)`, projects the
top-3 reviews; on store failure returns the zero-value snapshot with the
*number* `0` as `averageRating`. -/
def fetchRatingsAndReviews (st : LICStore) : AggregateSnapshot :=
  if st.fails then
    { averageRating := JsVal.num 0, ratingCount := 0, reviews := [] }
  else
    { averageRating := JsVal.str (toFixed1 (averageRatingVal st.ratings))
      ratingCount := (validRatings st.ratings).length
      reviews := st.topReviews.map fun r =>
        { username := r.username, comment := r.comment, createdAt := r.createdAt } }

/- ## Star renderer -/

/-- `renderStars` from `src/unnamed/part_000` lines 48-55 (identical in
the other copies): `Math.round(rating)` (i.e. `⌊x + 1/2⌋`) filled stars,
then empty stars, over five loop iterations. -/
def renderStars (rating : Rat) : String :=
  let starCount : Int := ⌊rating + 1 / 2⌋
  String.mk ((List.range 5).map fun i => if (i : Int) < starCount then '★' else '☆')

/-- `k` filled stars followed by `5 - k` empty stars. -/
def starString (k : Nat) : String :=
  String.mk (List.replicate k '★' ++ List.replicate (5 - k) '☆')

/-- Round to the nearest integer, ties rounding half up. -/
def roundHalfUp (x : Rat) : Nat := (⌊x + 1 / 2⌋).toNat


/- ## Page assembler (src/unnamed/part_000 lines 57-264) -/

/-- Drop trailing `0` digits. -/
def stripTrailingZeros (s : String) : String :=
  String.mk (s.data.reverse.dropWhile (fun c => c = '0')).reverse

/-- JS number-to-string, modelled for the nonnegative decimals this module
serializes (integers, and constants with at most six fractional digits). -/
def jsNumToString (q : Rat) : String :=
  if q.den = 1 then toString q.num
  else
    let scaled : Int := ⌊q * 1000000⌋
    let ip := scaled / 1000000
    let fp := (scaled % 1000000).toNat
    let digits := toString fp
    let padded := String.mk (List.replicate (6 - digits.length) '0') ++ digits
    toString ip ++ "." ++ stripTrailingZeros padded

/-- JS template interpolation `${v}` (ToString): strings verbatim,
numbers via number-to-string. -/
def jsValToString : JsVal → String
  | JsVal.num q => jsNumToString q
  | JsVal.str s => s

/-- JS numeric coercion (ToNumber) of a value, as used by `>=` and
`Math.round` when handed the `averageRating`. -/
def jsToNumber : JsVal → Rat
  | JsVal.num q => q
  | JsVal.str s => toNumber1 s

/-- A JSON value as built by the assembler for `JSON.stringify`. -/
inductive Json where
  | str (s : String)
  | num (q : Rat)
  | arr (xs : List Json)
  | obj (fields : List (String × Json))

/-- JS values embed into JSON as themselves. -/
def jsValToJson : JsVal → Json
  | JsVal.num q => Json.num q
  | JsVal.str s => Json.str s

/-- Lower-case hex digit. -/
def jsonHexDigit (n : Nat) : Char :=
  if n < 10 then Char.ofNat (48 + n) else Char.ofNat (87 + n)

/-- `JSON.stringify` string escaping: `"`, `\`, and control characters. -/
def jsonEscapeChar (c : Char) : String :=
  if c = '"' then "\\\""
  else if c = '\\' then "\\\\"
  else if c = Char.ofNat 8 then "\\b"
  else if c = Char.ofNat 9 then "\\t"
  else if c = Char.ofNat 10 then "\\n"
  else if c = Char.ofNat 12 then "\\f"
  else if c = Char.ofNat 13 then "\\r"
  else if c.toNat < 32 then
    "\\u00" ++ String.mk [jsonHexDigit (c.toNat / 16), jsonHexDigit (c.toNat % 16)]
  else String.singleton c

def jsonEscape (s : String) : String :=
  String.join (s.data.map jsonEscapeChar)

mutual

/-- `JSON.stringify`: compact output, object keys in insertion order. -/
def stringify : Json → String
  | Json.str s => "\"" ++ jsonEscape s ++ "\""
  | Json.num q => jsNumToString q
  | Json.arr xs => "[" ++ stringifyItems xs ++ "]"
  | Json.obj fs => "\x7b" ++ stringifyFields fs ++ "\x7d"

def stringifyItems : List Json → String
  | [] => ""
  | [x] => stringify x
  | x :: y :: xs => stringify x ++ "," ++ stringifyItems (y :: xs)

def stringifyFields : List (String × Json) → String
  | [] => ""
  | [(k, v)] => "\"" ++ jsonEscape k ++ "\":" ++ stringify v
  | (k, v) :: y :: xs =>
    "\"" ++ jsonEscape k ++ "\":" ++ stringify v ++ "," ++ stringifyFields (y :: xs)

end

def pageUrl : String := "https://lic-neemuch-jitendra-patidar.vercel.app/"

def titleImage : String :=
  "https://mys3resources.s3.ap-south-1.amazonaws.com/LIC/titleImage_LICBlo.jpeg"

def hcA : String := "\n      <nav class=\"navbar\" aria-label=\"Main navigation\">\n        <a href=\"/\" class=\"nav-link\" aria-label=\"Home\">Home</a>\n        <a href=\"/reviews\" class=\"nav-link\" aria-label=\"Reviews and Feedback\">Reviews & Feedback</a>\n        <a href=\"/join\" class=\"nav-link\" aria-label=\"Join as Agent\">Join as Agent</a>\n        <a href=\"/services\" class=\"nav-link\" aria-label=\"Services\">Services</a>\n        <a href=\"/about\" class=\"nav-link\" aria-label=\"About\">About</a>\n      </nav>\n      <div class=\"container\">\n        <main role=\"main\">\n          <h1 class=\"hero-title\">LIC Neemuch: Jitendra Patidar Ensures Your Secure Life</h1>\n          <article>\n            <section aria-labelledby=\"welcome-heading\">\n              <h2 id=\"welcome-heading\" class=\"section-heading\">Welcome to LIC Neemuch</h2>\n              <p class=\"content-text\" lang=\"en\">\n                At LIC Neemuch, led by Development Officer <strong>Jitendra Patidar</strong>, we ensure your secure life through comprehensive life insurance and financial planning solutions.\n              </p>\n              <p class=\"content-text\" lang=\"hi\">\n                नीमच में एलआईसी, विकास अधिकारी <strong>जीतेंद्र पाटीदार</strong> के नेतृत्व में, आपके सुरक्षित जीवन को सुनिश्चित करता है।\n              </p>\n              "

def hcB : String := "\n            </section>\n            <section aria-labelledby=\"contact-heading\">\n              <h2 id=\"contact-heading\" class=\"section-heading\">Contact Jitendra Patidar</h2>\n              <figure class=\"profile-figure\">\n                <img src=\"https://mys3resources.s3.ap-south-1.amazonaws.com/LIC/jitendraprofilephoto.jpg\" alt=\"Jitendra Patidar, LIC Development Officer\" width=\"300\" height=\"300\" class=\"profile-image\" loading=\"eager\" decoding=\"async\" fetchpriority=\"high\">\n                <figcaption class=\"sr-only\">Profile photo of Jitendra Patidar</figcaption>\n              </figure>\n              <p class=\"content-text\">\n                📞 <strong>Contact Number:</strong> <a href=\"tel:+917987235207\" class=\"content-link\">+91 7987235207</a>\n              </p>\n              <p class=\"content-text\">\n                📸 <strong>Instagram:</strong> <a href=\"https://www.instagram.com/jay7268patidar\" class=\"content-link\" target=\"_blank\" rel=\"noopener noreferrer\">jay7268patidar</a>\n              </p>\n              <address class=\"content-text\">\n                <strong>Office Address:</strong> Vikas Nagar, Scheme No. 14-3, Neemuch Chawni, Neemuch, Madhya Pradesh 458441\n              </address>\n            </section>\n            <section aria-labelledby=\"reviews-heading\">\n              <h2 id=\"reviews-heading\" class=\"section-heading\">Recent Reviews</h2>\n              "

def hcC : String := "\n            </section>\n          </article>\n        </main>\n        <footer class=\"footer\">\n          <p class=\"content-text\">\n            © <strong>EduXcel</strong> by Sanjay Patidar | June 9, 2025\n          </p>\n        </footer>\n      </div>\n    "

def rbA : String := "\n                <div class=\"rating-display\" aria-label=\"Average customer rating\">\n                  <span>"

def rbB : String := "</span>\n                  <span>"

def rbC : String := "/5 ("

def rbD : String := " reviews)</span>\n                </div>\n              "

def rlA : String := "\n                <ul class=\"review-list\">\n                  "

def rlB : String := "\n                </ul>\n              "

def riA : String := "\n                    <li class=\"review-item\">\n                      <strong>"

def riB : String := ":</strong> "

def riC : String := "\n                    </li>\n                  "

def docA : String := "\n      <!DOCTYPE html>\n      <html lang=\"mul\" dir=\"ltr\">\n      <head>\n        <meta charset=\"UTF-8\">\n        <meta name=\"viewport\" content=\"width=device-width, initial-scale=1.0\">\n        <meta name=\"description\" content=\""

def docB : String := "\">\n        <meta name=\"keywords\" content=\""

def docC : String := "\">\n        <title>LIC Neemuch: How Jitendra Patidar Ensures Your Secure Life</title>\n        <link rel=\"canonical\" href=\""

def docD : String := "\">\n        <script type=\"application/ld+json\">"

def docE : String := "</script>\n        <style>\n          :root \x7b\n            \x2d\x2dprimary-color: #ffbb00;\n            \x2d\x2dtext-color: #e0e0e0;\n            \x2d\x2dbg-gradient: linear-gradient(180deg, #050816, #010204);\n          \x7d\n          body \x7b font-family: \x27Inter\x27, sans-serif; color: var(\x2d\x2dtext-color); background: var(\x2d\x2dbg-gradient); \x7d\n          .navbar \x7b position: sticky; top: 0; background: rgba(0, 0, 0, 0.8); padding: 1rem; display: flex; justify-content: center; gap: 1.5rem; \x7d\n          .nav-link \x7b color: var(\x2d\x2dprimary-color); text-decoration: none; \x7d\n          .container \x7b max-width: 1200px; margin: 0 auto; padding: 1rem; \x7d\n          .hero-title \x7b font-size: 2.5rem; color: var(\x2d\x2dprimary-color); text-align: center; \x7d\n          .section-heading \x7b font-size: 1.8rem; color: var(\x2d\x2dprimary-color); margin: 1rem 0; \x7d\n          .content-text \x7b font-size: 1.125rem; margin-bottom: 1rem; \x7d\n          .content-link \x7b color: var(\x2d\x2dprimary-color); \x7d\n          .profile-image \x7b width: 300px; height: 300px; border-radius: 50%; \x7d\n          .rating-display \x7b display: flex; gap: 0.5rem; margin: 1rem 0; color: var(\x2d\x2dprimary-color); \x7d\n          .review-item \x7b margin-bottom: 1rem; \x7d\n          .footer \x7b text-align: center; padding: 1rem; \x7d\n        </style>\n      </head>\n      <body>\n        <div id=\"root\">"

def docF : String := "</div>\n        <script>window.__INITIAL_DATA__ = "

def docG : String := ";</script>\n      </body>\n      </html>\n    "

def errorHtml : String := "\n      <!DOCTYPE html>\n      <html lang=\"en\">\n      <head>\n        <meta charset=\"UTF-8\">\n        <meta name=\"viewport\" content=\"width=device-width, initial-scale=1.0\">\n        <title>Server Error</title>\n        <style>\n          body \x7b font-family: sans-serif; background: #050816; color: #e0e0e0; text-align: center; padding: 2rem; \x7d\n        </style>\n      </head>\n      <body>\n        <div id=\"root\">\n          <div>An error occurred. Please try again later.</div>\n          <a href=\"/\" style=\"color: #ffbb00;\">Home</a>\n        </div>\n      </body>\n      </html>\n    "

def mdA : String := "Jitendra Patidar, LIC Development Officer in Neemuch, offers trusted life insurance, financial planning, and LIC agent opportunities in Madhya Pradesh. Rated "

def mdB : String := "/5 by "

def mdC : String := " clients."

def keywords : String := "LIC Neemuch, Jitendra Patidar, secure life, life insurance Neemuch, LIC agent recruitment, financial planning Madhya Pradesh, trusted insurance solutions"

/-- `metaDescription` from part_000 line 69, interpolating the snapshot's
`averageRating` and `ratingCount`. -/
def metaDescription (s : AggregateSnapshot) : String :=
  mdA ++ jsValToString s.averageRating ++ mdB ++ toString s.ratingCount ++ mdC

/-- `new Date(t).toISOString().split('T')[0]`. -/
def isoDatePart (rt : Runtime) (t : Nat) : String :=
  ((rt.toISOString t).splitOn "T").headD ""

/-- `structuredData` from part_000 lines 73-125 as a JSON value. -/
def structuredData (rt : Runtime) (s : AggregateSnapshot) : Json :=
  Json.arr
    [ Json.obj
        [ ("@context", Json.str "https://schema.org")
        , ("@type", Json.str "Organization")
        , ("name", Json.str "LIC Neemuch")
        , ("url", Json.str pageUrl)
        , ("logo", Json.obj
            [ ("@type", Json.str "ImageObject")
            , ("url", Json.str titleImage)
            , ("width", Json.num 600)
            , ("height", Json.num 200) ])
        , ("sameAs", Json.arr [Json.str "https://www.instagram.com/jay7268patidar"]) ]
    , Json.obj
        [ ("@context", Json.str "https://schema.org")
        , ("@type", Json.str "LocalBusiness")
        , ("name", Json.str "LIC Neemuch")
        , ("description", Json.str (metaDescription s))
        , ("url", Json.str pageUrl)
        , ("address", Json.obj
            [ ("@type", Json.str "PostalAddress")
            , ("streetAddress", Json.str "Vikas Nagar, Scheme No. 14-3, Neemuch Chawni")
            , ("addressLocality", Json.str "Neemuch")
            , ("addressRegion", Json.str "Madhya Pradesh")
            , ("postalCode", Json.str "458441")
            , ("addressCountry", Json.str "IN") ])
        , ("geo", Json.obj
            [ ("@type", Json.str "GeoCoordinates")
            , ("latitude", Json.num (24476385 / 1000000))
            , ("longitude", Json.num (74862409 / 1000000)) ])
        , ("telephone", Json.str "+917987235207")
        , ("image", Json.str titleImage)
        , ("priceRange", Json.str "$$")
        , ("openingHours", Json.str "Mo-Fr 09:00-17:00")
        , ("hasMap", Json.str "https://maps.google.com/?q=Vikas+Nagar,+Neemuch,+Madhya+Pradesh+458441")
        , ("sameAs", Json.arr [Json.str "https://www.instagram.com/jay7268patidar"])
        , ("inLanguage", Json.arr [Json.str "en", Json.str "hi"])
        , ("contactPoint", Json.obj
            [ ("@type", Json.str "ContactPoint")
            , ("telephone", Json.str "+917987235207")
            , ("contactType", Json.str "Customer Service")
            , ("areaServed", Json.str "IN")
            , ("availableLanguage", Json.arr [Json.str "English", Json.str "Hindi"]) ])
        , ("aggregateRating", Json.obj
            [ ("@type", Json.str "AggregateRating")
            , ("ratingValue", jsValToJson s.averageRating)
            , ("reviewCount", Json.num (s.ratingCount : Rat))
            , ("bestRating", Json.str "5")
            , ("worstRating", Json.str "1") ])
        , ("review", Json.arr (s.reviews.map fun r => Json.obj
            [ ("@type", Json.str "Review")
            , ("author", Json.obj
                [ ("@type", Json.str "Person")
                , ("name", Json.str r.username) ])
            , ("datePublished", Json.str (isoDatePart rt r.createdAt))
            , ("reviewBody", Json.str r.comment) ])) ] ]

/-- `initialData` from part_000 lines 127-131; `createdAt` dates
serialize via `toISOString`. -/
def initialData (rt : Runtime) (s : AggregateSnapshot) : Json :=
  Json.obj
    [ ("averageRating", jsValToJson s.averageRating)
    , ("ratingCount", Json.num (s.ratingCount : Rat))
    , ("reviews", Json.arr (s.reviews.map fun r => Json.obj
        [ ("username", Json.str r.username)
        , ("comment", Json.str r.comment)
        , ("createdAt", Json.str (rt.toISOString r.createdAt)) ])) ]

/-- The conditional rating-display block (part_000 lines 153-158):
`renderStars(averageRating)` coerces the string through ToNumber. -/
def ratingDisplayBlock (s : AggregateSnapshot) : String :=
  rbA ++ renderStars (jsToNumber s.averageRating) ++ rbB ++ jsValToString s.averageRating
    ++ rbC ++ toString s.ratingCount ++ rbD

/-- One `<li>` of the reviews list (part_000 lines 180-184). -/
def reviewItemHTML (r : Review) : String :=
  riA ++ escapeHTML r.username ++ riB ++ escapeHTML r.comment ++ riC

/-- The populated reviews list (part_000 lines 178-185). -/
def reviewListBlock (s : AggregateSnapshot) : String :=
  rlA ++ String.join (s.reviews.map reviewItemHTML) ++ rlB

def noReviewsMsg : String := "<p class=\"content-text\">No reviews yet.</p>"

/-- `htmlContent` from part_000 lines 133-196: the inner fragment with
the two conditional blocks, guarded exactly as in the source
(`ratingCount > 0 && averageRating >= 1`; `reviews.length > 0`). -/
def htmlContent (s : AggregateSnapshot) : String :=
  hcA ++ (if 0 < s.ratingCount ∧ 1 ≤ jsToNumber s.averageRating
          then ratingDisplayBlock s else "")
    ++ hcB ++ (if 0 < s.reviews.length then reviewListBlock s else noReviewsMsg) ++ hcC

/-- `html` from part_000 lines 198-234: the full document assembled from
a snapshot. -/
def renderPage (rt : Runtime) (s : AggregateSnapshot) : String :=
  docA ++ escapeHTML (metaDescription s) ++ docB ++ escapeHTML keywords ++ docC ++ pageUrl
    ++ docD ++ stringify (structuredData rt s) ++ docE ++ htmlContent s ++ docF
    ++ stringify (initialData rt s) ++ docG

/- ## Response cache and request handler (part_000 lines 57-264) -/

/-- `cache.get` on the `Map`: first entry with the given key. -/
def mapGet (m : List (String × String)) (k : String) : Option String :=
  (m.find? fun kv => decide (kv.1 = k)).map fun kv => kv.2

/-- `cache.set` on the `Map`: replace the entry if the key is present,
else append. -/
def mapSet (m : List (String × String)) (k v : String) : List (String × String) :=
  if m.any fun kv => decide (kv.1 = k) then
    m.map fun kv => if kv.1 = k then (k, v) else kv
  else m ++ [(k, v)]

/-- The time-bucketed cache key from part_000 line 58:
`ssr:home:${Date.now() - (Date.now() % 600000)}`. -/
def bucketKey (now : Nat) : String :=
  "ssr:home:" ++ toString (now - now % 600000)

/-- The `Cache-Control` header value set on both the cached and the fresh
path (part_000 lines 61 and 238). -/
def cacheControl600 : String :=
  "public, max-age=600, s-maxage=600, stale-while-revalidate=600"

/-- An HTTP response as assembled by the handler: status, the headers it
may set, and the body. -/
structure HttpResponse where
  status : Nat
  contentType : Option String
  cacheControl : Option String
  etag : Option String
  body : String
deriving DecidableEq, Repr

/-- The `GET /` handler from part_000 lines 57-264, as a function of the
cache contents, the current time, the store state, and an optional
exception raised inside the `try` block before `cache.set` (`exn` carries
the exception's message, which is only ever logged). Returns the response
and the updated cache. On a hit only `Cache-Control` and `ETag` are set;
on a miss the page is rendered, cached, and sent with `Content-Type`; on
an exception the static error page is sent with status 500. -/
def handleHome (rt : Runtime) (cache : List (String × String)) (now : Nat)
    (store : LICStore) (exn : Option String) : HttpResponse × List (String × String) :=
  let cacheKey := bucketKey now
  match mapGet cache cacheKey with
  | some cachedHtml =>
    ({ status := 200, contentType := none, cacheControl := some cacheControl600,
       etag := some (rt.md5Hex cachedHtml), body := cachedHtml }, cache)
  | none =>
    match exn with
    | some _ =>
      ({ status := 500, contentType := none, cacheControl := none, etag := none,
         body := errorHtml }, cache)
    | none =>
      let html := renderPage rt (fetchRatingsAndReviews store)
      ({ status := 200, contentType := some "text/html",
         cacheControl := some cacheControl600,
         etag := some (rt.md5Hex html), body := html }, mapSet cache cacheKey html)

/- ## POST /api/lic/ratings (src/server.js lines 103-117) -/

/-- The parsed `{ userId, rating }` request body; `none` models an absent
(or `null`/`undefined`) field. -/
structure RatingBody where
  userId : Option String
  rating : Option Rat
deriving DecidableEq, Repr

/-- `LICRating.findOneAndUpdate({ userId }, { rating }, { upsert: true })`. -/
def upsertRating (db : List (String × Rat)) (uid : String) (r : Rat) :
    List (String × Rat) :=
  if db.any fun kv => decide (kv.1 = uid) then
    db.map fun kv => if kv.1 = uid then (uid, r) else kv
  else db ++ [(uid, r)]

/-- The `POST /api/lic/ratings` handler from `src/server.js` lines
103-117 (same in `part_002`): `if (!userId || !rating)` rejects with 400
(falsy: absent field, empty string, the number 0), otherwise upserts and
responds 200. Returns the status and the resulting ratings store. -/
def postRatings (body : RatingBody) (db : List (String × Rat)) :
    Nat × List (String × Rat) :=
  match body.userId, body.rating with
  | some uid, some r =>
    if decide (uid = "") || decide (r = 0) then (400, db)
    else (200, upsertRating db uid r)
  | _, _ => (400, db)


/-- A trivial runtime instantiation (constant hash and date renderer),
used to instantiate theorems at concrete inputs. -/
def rtTrivial : Runtime := { md5Hex := fun _ => "", toISOString := fun _ => "" }

theorem replaceChar_append (c : Char) (w : List Char) (a b : List Char) :
    replaceChar c w (a ++ b) = replaceChar c w a ++ replaceChar c w b := by
  induction a with
  | nil => simp [replaceChar]
  | cons x xs ih => simp [replaceChar, ih]

theorem escChain_append (a b : List Char) :
    escChain (a ++ b) = escChain a ++ escChain b := by
  simp [escChain, replaceChar_append]

theorem escChain_single (x : Char) : escChain [x] = escChar x := by
  by_cases h1 : x = '&'
  · subst h1; decide
  · by_cases h2 : x = '<'
    · subst h2; decide
    · by_cases h3 : x = '>'
      · subst h3; decide
      · by_cases h4 : x = '"'
        · subst h4; decide
        · by_cases h5 : x = squote
          · subst h5; decide
          · simp [escChain, replaceChar, escChar, h1, h2, h3, h4, h5]

theorem escChain_eq_escAll (l : List Char) : escChain l = escAll l := by
  induction l with
  | nil => decide
  | cons x xs ih =>
    have : escChain (x :: xs) = escChain [x] ++ escChain xs := by
      have := escChain_append [x] xs
      simpa using this
    rw [this, escChain_single, ih]
    rfl

theorem isFullyEscaped_amp (r : List Char) :
    isFullyEscaped ('&' :: 'a' :: 'm' :: 'p' :: ';' :: r) = isFullyEscaped r := rfl

theorem isFullyEscaped_lt (r : List Char) :
    isFullyEscaped ('&' :: 'l' :: 't' :: ';' :: r) = isFullyEscaped r := rfl

theorem isFullyEscaped_gt (r : List Char) :
    isFullyEscaped ('&' :: 'g' :: 't' :: ';' :: r) = isFullyEscaped r := rfl

theorem isFullyEscaped_quot (r : List Char) :
    isFullyEscaped ('&' :: 'q' :: 'u' :: 'o' :: 't' :: ';' :: r) = isFullyEscaped r := rfl

theorem isFullyEscaped_num39 (r : List Char) :
    isFullyEscaped ('&' :: '#' :: '3' :: '9' :: ';' :: r) = isFullyEscaped r := rfl

theorem isFullyEscaped_cons_safe (x : Char) (l : List Char)
    (h1 : x ≠ '&') (h2 : x ≠ '<') (h3 : x ≠ '>') (h4 : x ≠ '"') (h5 : x ≠ squote) :
    isFullyEscaped (x :: l) = isFullyEscaped l := by
  rw [isFullyEscaped.eq_def]
  simp [h1, h2, h3, h4, h5]

theorem isFullyEscaped_escAll (l : List Char) : isFullyEscaped (escAll l) = true := by
  induction l with
  | nil => decide
  | cons x xs ih =>
    by_cases h1 : x = '&'
    · subst h1
      show isFullyEscaped (wAmp ++ escAll xs) = true
      rw [wAmp, List.cons_append, List.cons_append, List.cons_append, List.cons_append,
        List.cons_append, List.nil_append, isFullyEscaped_amp]
      exact ih
    · by_cases h2 : x = '<'
      · subst h2
        show isFullyEscaped (wLt ++ escAll xs) = true
        rw [wLt, List.cons_append, List.cons_append, List.cons_append, List.cons_append,
          List.nil_append, isFullyEscaped_lt]
        exact ih
      · by_cases h3 : x = '>'
        · subst h3
          show isFullyEscaped (wGt ++ escAll xs) = true
          rw [wGt, List.cons_append, List.cons_append, List.cons_append, List.cons_append,
            List.nil_append, isFullyEscaped_gt]
          exact ih
        · by_cases h4 : x = '"'
          · subst h4
            show isFullyEscaped (wQuot ++ escAll xs) = true
            rw [wQuot, List.cons_append, List.cons_append, List.cons_append, List.cons_append,
              List.cons_append, List.cons_append, List.nil_append, isFullyEscaped_quot]
            exact ih
          · by_cases h5 : x = squote
            · subst h5
              show isFullyEscaped (wNum39 ++ escAll xs) = true
              rw [wNum39, List.cons_append, List.cons_append, List.cons_append, List.cons_append,
                List.cons_append, List.nil_append, isFullyEscaped_num39]
              exact ih
            · show isFullyEscaped (escChar x ++ escAll xs) = true
              rw [escChar, if_neg h1, if_neg h2, if_neg h3, if_neg h4, if_neg h5,
                List.cons_append, List.nil_append, isFullyEscaped_cons_safe x _ h1 h2 h3 h4 h5]
              exact ih

/-- C1 (counterexample): the `escapeHTML` of `src/homePageSSR.js` leaves
the input `"&"` — which contains one of the five reserved characters —
entirely unescaped: the output still contains a bare `&`. -/
theorem escapeHTML_homePageSSR_leaves_amp_unescaped :
    '&' ∈ ("&" : String).data ∧
    escapeHTMLNoAmp "&" = "&" ∧
    isFullyEscaped (escapeHTMLNoAmp "&").data = false := by
  refine ⟨by decide, by decide, by decide⟩

/-- C1 (amended): the `escapeHTML` of `src/unnamed/part_000`/`part_001`
performs, in order, `&`→`&amp;`, `<`→`&lt;`, `>`→`&gt;`, `"`→`&quot;`,
`'`→`&#39;`, and for every input string its output contains none of the
five reserved characters unescaped. (The `src/homePageSSR.js` copy omits
the `&` replacement, so its output can contain a bare `&`.) -/
theorem escapeHTML_output_fullyEscaped (s : String) :
    isFullyEscaped (escapeHTML s).data = true := by
  by_cases h : s = ""
  · subst h; decide
  · show isFullyEscaped (escapeHTML s).data = true
    rw [escapeHTML, if_neg h]
    show isFullyEscaped (escChain s.data) = true
    rw [escChain_eq_escAll]
    exact isFullyEscaped_escAll s.data

theorem mem_validRatings {r : Rat} {l : List Rat} (h : r ∈ validRatings l) :
    1 ≤ r ∧ r ≤ 5 := by
  rw [validRatings] at h
  have := List.of_mem_filter h
  simpa using this

theorem sum_le_five_mul (l : List Rat) (h : ∀ x ∈ l, x ≤ 5) :
    l.sum ≤ 5 * l.length := by
  induction l with
  | nil => simp
  | cons a t ih =>
    simp only [List.sum_cons, List.length_cons]
    have ha := h a (by simp)
    have ht := ih fun x hx => h x (by simp [hx])
    push_cast
    linarith

theorem length_le_sum (l : List Rat) (h : ∀ x ∈ l, 1 ≤ x) :
    (l.length : Rat) ≤ l.sum := by
  induction l with
  | nil => simp
  | cons a t ih =>
    simp only [List.sum_cons, List.length_cons]
    have ha := h a (by simp)
    have ht := ih fun x hx => h x (by simp [hx])
    push_cast
    linarith

theorem averageRatingVal_bounds (ratings : List Rat) :
    0 ≤ averageRatingVal ratings ∧ averageRatingVal ratings ≤ 5 ∧
      (averageRatingVal ratings = 0 ↔ validRatings ratings = []) ∧
      (validRatings ratings ≠ [] → 1 ≤ averageRatingVal ratings) := by
  by_cases hv : (validRatings ratings).length = 0
  · have hnil : validRatings ratings = [] := List.length_eq_zero.mp hv
    rw [averageRatingVal, if_pos hv]
    refine ⟨le_refl 0, by norm_num, by simp [hnil], fun hne => absurd hnil hne⟩
  · have hnil : validRatings ratings ≠ [] := fun hn => hv (by simp [hn])
    have hpos : 0 < ((validRatings ratings).length : Rat) := by
      have : 0 < (validRatings ratings).length := Nat.pos_of_ne_zero hv
      exact_mod_cast this
    have hsum_le : (validRatings ratings).sum ≤ 5 * (validRatings ratings).length :=
      sum_le_five_mul _ fun x hx => (mem_validRatings hx).2
    have hsum_ge : ((validRatings ratings).length : Rat) ≤ (validRatings ratings).sum :=
      length_le_sum _ fun x hx => (mem_validRatings hx).1
    rw [averageRatingVal, if_neg hv]
    have h1 : 1 ≤ (validRatings ratings).sum / ((validRatings ratings).length : Rat) := by
      rw [le_div_iff hpos]
      linarith
    have h5 : (validRatings ratings).sum / ((validRatings ratings).length : Rat) ≤ 5 := by
      rw [div_le_iff hpos]
      linarith
    refine ⟨by linarith, h5, ?_, fun _ => h1⟩
    constructor
    · intro h0
      exact absurd h0 (by linarith)
    · intro h0
      exact absurd h0 hnil

unseal Rat.add Rat.mul Rat.inv in
/-- C2: with the store reachable, the aggregator filters ratings to [1,5]
before averaging: `ratingCount` is the number of ratings in [1,5], the
numeric average lies in [0,5] and is 0 iff no rating is in [1,5], and the
rating set [5,5,4] yields `averageRating = "4.7"`, `ratingCount = 3`. -/
theorem fetchRatingsAndReviews_spec (ratings : List Rat) (revs : List Review) :
    (fetchRatingsAndReviews { ratings := ratings, topReviews := revs, fails := false }).ratingCount
        = (validRatings ratings).length ∧
    (fetchRatingsAndReviews { ratings := ratings, topReviews := revs, fails := false }).averageRating
        = JsVal.str (toFixed1 (averageRatingVal ratings)) ∧
    0 ≤ averageRatingVal ratings ∧ averageRatingVal ratings ≤ 5 ∧
    (averageRatingVal ratings = 0 ↔ validRatings ratings = []) ∧
    (fetchRatingsAndReviews { ratings := [5, 5, 4], topReviews := [], fails := false }).averageRating
        = JsVal.str "4.7" ∧
    (fetchRatingsAndReviews { ratings := [5, 5, 4], topReviews := [], fails := false }).ratingCount
        = 3 := by
  obtain ⟨hb0, hb5, hiff, -⟩ := averageRatingVal_bounds ratings
  exact ⟨rfl, rfl, hb0, hb5, hiff, by decide, by decide⟩

/-- C5: whenever the store query fails, `fetchRatingsAndReviews` returns
the zero-value snapshot `{averageRating: 0, ratingCount: 0, reviews: []}`
instead of propagating the failure (the function is total: no error
reaches the caller). -/
theorem fetchRatingsAndReviews_storeFailure (st : LICStore) (h : st.fails = true) :
    fetchRatingsAndReviews st =
      { averageRating := JsVal.num 0, ratingCount := 0, reviews := [] } := by
  rw [fetchRatingsAndReviews, if_pos h]

theorem fetchRatingsAndReviews_storeFailure_witness :
    fetchRatingsAndReviews { ratings := [5, 2], topReviews := [], fails := true } =
      { averageRating := JsVal.num 0, ratingCount := 0, reviews := [] } :=
  fetchRatingsAndReviews_storeFailure { ratings := [5, 2], topReviews := [], fails := true } rfl

theorem starString_of_range (k : Nat) (hk : k < 6) :
    String.mk ((List.range 5).map fun i => if (i : Int) < (k : Int) then '★' else '☆')
      = starString k := by
  interval_cases k <;> decide

unseal Rat.add Rat.mul Rat.inv in
theorem renderStars_eq_starString (x : Rat) (h0 : 0 ≤ x) (h5 : x ≤ 5) :
    renderStars x = starString (roundHalfUp x) ∧ roundHalfUp x < 6 := by
  have hb0 : (0 : Int) ≤ ⌊x + 1 / 2⌋ := by
    apply Int.le_floor.mpr
    push_cast
    linarith
  have hb5 : ⌊x + 1 / 2⌋ < 6 := by
    apply Int.floor_lt.mpr
    push_cast
    linarith
  have hkn : ⌊x + 1 / 2⌋.toNat < 6 := by omega
  constructor
  · obtain ⟨k, hke⟩ : ∃ k : Nat, ⌊x + 1 / 2⌋ = (k : Int) :=
      ⟨⌊x + 1 / 2⌋.toNat, (Int.toNat_of_nonneg hb0).symm⟩
    have hk6 : k < 6 := by omega
    show String.mk ((List.range 5).map fun i => if (i : Int) < ⌊x + 1 / 2⌋ then '★' else '☆')
      = starString (roundHalfUp x)
    rw [roundHalfUp, hke, Int.toNat_natCast]
    exact starString_of_range k hk6
  · exact hkn

unseal Rat.add Rat.mul Rat.inv in
/-- C4: for every rating in [0,5], `renderStars` emits the 5-character
string with `roundHalfUp rating` filled stars first, then empty stars;
3.4 gives "★★★☆☆", 0 gives "☆☆☆☆☆", 5 gives "★★★★★". -/
theorem renderStars_spec (x : Rat) (h0 : 0 ≤ x) (h5 : x ≤ 5) :
    (renderStars x).length = 5 ∧
    renderStars x = starString (roundHalfUp x) ∧
    renderStars (34 / 10) = "★★★☆☆" ∧
    renderStars 0 = "☆☆☆☆☆" ∧
    renderStars 5 = "★★★★★" := by
  obtain ⟨heq, hlt⟩ := renderStars_eq_starString x h0 h5
  refine ⟨?_, heq, by decide, by decide, by decide⟩
  rw [heq]
  show (List.replicate (roundHalfUp x) '★' ++ List.replicate (5 - roundHalfUp x) '☆').length = 5
  rw [List.length_append, List.length_replicate, List.length_replicate]
  omega

unseal Rat.add Rat.mul Rat.inv in
theorem renderStars_spec_witness :
    (0 : Rat) ≤ 34 / 10 ∧ (34 / 10 : Rat) ≤ 5 ∧
      ((renderStars (34 / 10)).length = 5 ∧
        renderStars (34 / 10) = starString (roundHalfUp (34 / 10)) ∧
        renderStars (34 / 10) = "★★★☆☆" ∧
        renderStars 0 = "☆☆☆☆☆" ∧
        renderStars 5 = "★★★★★") :=
  ⟨by norm_num, by norm_num, renderStars_spec (34 / 10) (by norm_num) (by norm_num)⟩

theorem mapGet_cons (a : String × String) (t : List (String × String)) (k : String) :
    mapGet (a :: t) k = if a.1 = k then some a.2 else mapGet t k := by
  rw [mapGet, List.find?]
  by_cases h : a.1 = k
  · simp [h]
  · simp [h, mapGet]

theorem mapGet_replace_self (m : List (String × String)) (k v : String)
    (h : (m.any fun kv => decide (kv.1 = k)) = true) :
    mapGet (m.map fun kv => if kv.1 = k then (k, v) else kv) k = some v := by
  induction m with
  | nil => simp at h
  | cons a t ih =>
    rw [List.map_cons]
    by_cases ha : a.1 = k
    · rw [if_pos ha, mapGet_cons, if_pos rfl]
    · rw [if_neg ha, mapGet_cons, if_neg ha]
      exact ih (by simpa [List.any_cons, ha] using h)

theorem mapGet_append_single_self (m : List (String × String)) (k v : String)
    (h : (m.any fun kv => decide (kv.1 = k)) = false) :
    mapGet (m ++ [(k, v)]) k = some v := by
  induction m with
  | nil => rw [List.nil_append, mapGet_cons, if_pos rfl]
  | cons a t ih =>
    simp only [List.any_cons, Bool.or_eq_false_iff, decide_eq_false_iff_not] at h
    rw [List.cons_append, mapGet_cons, if_neg h.1]
    exact ih h.2

theorem mapGet_replace_ne (m : List (String × String)) (k v k' : String)
    (hne : k' ≠ k) :
    mapGet (m.map fun kv => if kv.1 = k then (k, v) else kv) k' = mapGet m k' := by
  induction m with
  | nil => rfl
  | cons a t ih =>
    rw [List.map_cons]
    by_cases ha : a.1 = k
    · rw [if_pos ha, mapGet_cons, mapGet_cons,
        if_neg (fun hh => hne hh.symm),
        if_neg (fun hh => hne (ha.symm.trans hh).symm)]
      exact ih
    · rw [if_neg ha, mapGet_cons, mapGet_cons]
      by_cases ha' : a.1 = k'
      · rw [if_pos ha', if_pos ha']
      · rw [if_neg ha', if_neg ha']
        exact ih

theorem mapGet_append_single_ne (m : List (String × String)) (k v k' : String)
    (hne : k' ≠ k) :
    mapGet (m ++ [(k, v)]) k' = mapGet m k' := by
  induction m with
  | nil =>
    rw [List.nil_append, mapGet_cons, if_neg (fun hh => hne hh.symm)]
  | cons a t ih =>
    rw [List.cons_append, mapGet_cons, mapGet_cons]
    by_cases ha' : a.1 = k'
    · rw [if_pos ha', if_pos ha']
    · rw [if_neg ha', if_neg ha']
      exact ih

theorem mapGet_mapSet_self (m : List (String × String)) (k v : String) :
    mapGet (mapSet m k v) k = some v := by
  rw [mapSet]
  by_cases h : (m.any fun kv => decide (kv.1 = k)) = true
  · rw [if_pos h]
    exact mapGet_replace_self m k v h
  · rw [if_neg h]
    exact mapGet_append_single_self m k v (Bool.eq_false_iff.mpr h)

theorem mapGet_mapSet_ne (m : List (String × String)) (k v k' : String)
    (hne : k' ≠ k) :
    mapGet (mapSet m k v) k' = mapGet m k' := by
  rw [mapSet]
  by_cases h : (m.any fun kv => decide (kv.1 = k)) = true
  · rw [if_pos h]
    exact mapGet_replace_ne m k v k' hne
  · rw [if_neg h]
    exact mapGet_append_single_ne m k v k' hne

theorem handleHome_hit (rt : Runtime) (cache : List (String × String)) (now : Nat)
    (store : LICStore) (exn : Option String) (html : String)
    (h : mapGet cache (bucketKey now) = some html) :
    handleHome rt cache now store exn =
      ({ status := 200, contentType := none, cacheControl := some cacheControl600,
         etag := some (rt.md5Hex html), body := html }, cache) := by
  simp [handleHome, h]

theorem handleHome_miss_exn (rt : Runtime) (cache : List (String × String)) (now : Nat)
    (store : LICStore) (msg : String)
    (h : mapGet cache (bucketKey now) = none) :
    handleHome rt cache now store (some msg) =
      ({ status := 500, contentType := none, cacheControl := none, etag := none,
         body := errorHtml }, cache) := by
  simp [handleHome, h]

theorem handleHome_miss_fresh (rt : Runtime) (cache : List (String × String)) (now : Nat)
    (store : LICStore)
    (h : mapGet cache (bucketKey now) = none) :
    handleHome rt cache now store none =
      ({ status := 200, contentType := some "text/html",
         cacheControl := some cacheControl600,
         etag := some (rt.md5Hex (renderPage rt (fetchRatingsAndReviews store))),
         body := renderPage rt (fetchRatingsAndReviews store) },
       mapSet cache (bucketKey now) (renderPage rt (fetchRatingsAndReviews store))) := by
  simp [handleHome, h]

theorem handleHome_etag_hash (rt : Runtime) (c : List (String × String)) (n : Nat)
    (st : LICStore) (e : Option String)
    (hok : (handleHome rt c n st e).1.status ≠ 500) :
    (handleHome rt c n st e).1.etag
      = some (rt.md5Hex (handleHome rt c n st e).1.body) := by
  cases hget : mapGet c (bucketKey n) with
  | some html => rw [handleHome_hit rt c n st e html hget]
  | none =>
    cases e with
    | some msg =>
      rw [handleHome_miss_exn rt c n st msg hget] at hok ⊢
      exact absurd rfl hok
    | none => rw [handleHome_miss_fresh rt c n st hget]

unseal Rat.add Rat.mul Rat.inv in
theorem fix1_ge1 : ∀ m : Nat, m < 51 → 10 ≤ m → 1 ≤ toNumber1 (fixed1Str m) := by decide

theorem one_le_toNumber1_toFixed1 (x : Rat) (h1 : 1 ≤ x) (h5 : x ≤ 5) :
    1 ≤ toNumber1 (toFixed1 x) := by
  have hf10 : (10 : Int) ≤ ⌊10 * x + 1 / 2⌋ := Int.le_floor.mpr (by push_cast; linarith)
  have hf51 : ⌊10 * x + 1 / 2⌋ < 51 := Int.floor_lt.mpr (by push_cast; linarith)
  rw [toFixed1]
  exact fix1_ge1 (⌊10 * x + 1 / 2⌋).toNat (by omega) (by omega)

theorem fetch_guard_iff (store : LICStore) :
    ((0 < (fetchRatingsAndReviews store).ratingCount ∧
      1 ≤ jsToNumber (fetchRatingsAndReviews store).averageRating)
      ↔ (fetchRatingsAndReviews store).ratingCount ≠ 0) := by
  cases hf : store.fails with
  | true => simp [fetchRatingsAndReviews, hf]
  | false =>
    rw [fetchRatingsAndReviews]
    rw [hf]
    rw [if_neg (by decide)]
    show (0 < (validRatings store.ratings).length ∧
        1 ≤ toNumber1 (toFixed1 (averageRatingVal store.ratings)))
      ↔ (validRatings store.ratings).length ≠ 0
    constructor
    · rintro ⟨h1, -⟩
      omega
    · intro h
      obtain ⟨-, hb5, -, hone⟩ := averageRatingVal_bounds store.ratings
      have hne : validRatings store.ratings ≠ [] := by
        intro hnil
        apply h
        simp [hnil]
      exact ⟨Nat.pos_of_ne_zero h, one_le_toNumber1_toFixed1 _ (hone hne) hb5⟩

/-- C7: for every snapshot produced by the aggregator, the assembled
fragment contains the rating-display block exactly when `ratingCount ≠ 0`
(the block string is nonempty and the template collapses it to the empty
string otherwise), and contains the "No reviews yet." message exactly when
the review list is empty. -/
theorem htmlContent_conditionals (store : LICStore) :
    (htmlContent (fetchRatingsAndReviews store)
      = hcA ++ (if (fetchRatingsAndReviews store).ratingCount ≠ 0
                then ratingDisplayBlock (fetchRatingsAndReviews store) else "")
        ++ hcB ++ (if (fetchRatingsAndReviews store).reviews = []
                   then noReviewsMsg else reviewListBlock (fetchRatingsAndReviews store))
        ++ hcC)
    ∧ ratingDisplayBlock (fetchRatingsAndReviews store) ≠ ""
    ∧ noReviewsMsg ≠ "" := by
  refine ⟨?_, ?_, by decide⟩
  · have hrev : (if 0 < (fetchRatingsAndReviews store).reviews.length
        then reviewListBlock (fetchRatingsAndReviews store) else noReviewsMsg)
      = (if (fetchRatingsAndReviews store).reviews = []
         then noReviewsMsg else reviewListBlock (fetchRatingsAndReviews store)) := by
      cases hr : (fetchRatingsAndReviews store).reviews with
      | nil => simp
      | cons a t => simp
    rw [htmlContent, if_congr (fetch_guard_iff store) rfl rfl, hrev]
  · intro hemp
    have hlen := congrArg String.length hemp
    rw [ratingDisplayBlock] at hlen
    simp only [String.length_append, String.length_empty] at hlen
    have h107 : rbA.length = 107 := by decide
    omega

/-- C3: two GET / requests in the same time bucket return byte-identical
HTML bodies and identical ETag headers; every non-error response carries
`ETag = md5Hex(body)` (the MD5 itself is the external `crypto`
collaborator); and a request in a different bucket whose key is not yet
cached recomputes the page from the current store state. -/
theorem handleHome_cache_spec (rt : Runtime) (cache : List (String × String))
    (now₁ now₂ : Nat) (store₁ store₂ : LICStore)
    (hb : bucketKey now₁ = bucketKey now₂) :
    ((handleHome rt (handleHome rt cache now₁ store₁ none).2 now₂ store₂ none).1.body
        = (handleHome rt cache now₁ store₁ none).1.body) ∧
    ((handleHome rt (handleHome rt cache now₁ store₁ none).2 now₂ store₂ none).1.etag
        = (handleHome rt cache now₁ store₁ none).1.etag) ∧
    (∀ (c : List (String × String)) (n : Nat) (st : LICStore) (e : Option String),
      (handleHome rt c n st e).1.status ≠ 500 →
      (handleHome rt c n st e).1.etag
        = some (rt.md5Hex (handleHome rt c n st e).1.body)) ∧
    (∀ (now₃ : Nat) (store₃ : LICStore), bucketKey now₃ ≠ bucketKey now₁ →
      mapGet cache (bucketKey now₃) = none →
      (handleHome rt (handleHome rt cache now₁ store₁ none).2 now₃ store₃ none).1.body
        = renderPage rt (fetchRatingsAndReviews store₃)) := by
  cases hget : mapGet cache (bucketKey now₁) with
  | some html =>
    rw [handleHome_hit rt cache now₁ store₁ none html hget]
    have hget₂ : mapGet cache (bucketKey now₂) = some html := hb ▸ hget
    rw [handleHome_hit rt cache now₂ store₂ none html hget₂]
    refine ⟨rfl, rfl, fun c n st e hok => handleHome_etag_hash rt c n st e hok, ?_⟩
    intro now₃ store₃ hne₃ hget₃
    rw [handleHome_miss_fresh rt cache now₃ store₃ hget₃]
  | none =>
    rw [handleHome_miss_fresh rt cache now₁ store₁ hget]
    have hget₂ : mapGet
        (mapSet cache (bucketKey now₁) (renderPage rt (fetchRatingsAndReviews store₁)))
        (bucketKey now₂) = some (renderPage rt (fetchRatingsAndReviews store₁)) := by
      rw [← hb]
      exact mapGet_mapSet_self cache (bucketKey now₁)
        (renderPage rt (fetchRatingsAndReviews store₁))
    rw [handleHome_hit rt _ now₂ store₂ none _ hget₂]
    refine ⟨rfl, rfl, fun c n st e hok => handleHome_etag_hash rt c n st e hok, ?_⟩
    intro now₃ store₃ hne₃ hget₃
    have hget₃' : mapGet
        (mapSet cache (bucketKey now₁) (renderPage rt (fetchRatingsAndReviews store₁)))
        (bucketKey now₃) = none := by
      rw [mapGet_mapSet_ne cache (bucketKey now₁)
        (renderPage rt (fetchRatingsAndReviews store₁)) (bucketKey now₃) hne₃]
      exact hget₃
    rw [handleHome_miss_fresh rt _ now₃ store₃ hget₃']

theorem handleHome_cache_spec_witness :
    (bucketKey 0 = bucketKey 1) ∧
    (((handleHome rtTrivial (handleHome rtTrivial [] 0 ⟨[5], [], false⟩ none).2 1
          ⟨[], [], false⟩ none).1.body
        = (handleHome rtTrivial [] 0 ⟨[5], [], false⟩ none).1.body) ∧
      ((handleHome rtTrivial (handleHome rtTrivial [] 0 ⟨[5], [], false⟩ none).2 1
          ⟨[], [], false⟩ none).1.etag
        = (handleHome rtTrivial [] 0 ⟨[5], [], false⟩ none).1.etag) ∧
      (∀ (c : List (String × String)) (n : Nat) (st : LICStore) (e : Option String),
        (handleHome rtTrivial c n st e).1.status ≠ 500 →
        (handleHome rtTrivial c n st e).1.etag
          = some (rtTrivial.md5Hex (handleHome rtTrivial c n st e).1.body)) ∧
      (∀ (now₃ : Nat) (store₃ : LICStore), bucketKey now₃ ≠ bucketKey 0 →
        mapGet [] (bucketKey now₃) = none →
        (handleHome rtTrivial (handleHome rtTrivial [] 0 ⟨[5], [], false⟩ none).2 now₃
            store₃ none).1.body
          = renderPage rtTrivial (fetchRatingsAndReviews store₃))) :=
  ⟨by decide, handleHome_cache_spec rtTrivial [] 0 1 ⟨[5], [], false⟩ ⟨[], [], false⟩
    (by decide)⟩

/-- C6: page assembly is a deterministic function of the
AggregateSnapshot (given the fixed external runtime): rendering equal
snapshots yields identical HTML documents. -/
theorem renderPage_deterministic (rt : Runtime) (s₁ s₂ : AggregateSnapshot)
    (h : s₁ = s₂) : renderPage rt s₁ = renderPage rt s₂ := by
  rw [h]

theorem renderPage_deterministic_witness :
    renderPage rtTrivial ⟨JsVal.str "0.0", 0, []⟩
      = renderPage rtTrivial ⟨JsVal.str "0.0", 0, []⟩ :=
  renderPage_deterministic rtTrivial ⟨JsVal.str "0.0", 0, []⟩ ⟨JsVal.str "0.0", 0, []⟩ rfl

/-- C8 (counterexample): a failed store query *is* an exception thrown
during aggregation of the GET / response, yet the handler responds 200
(with a page rendered from the zero snapshot), not 500: aggregation
failures are swallowed inside `fetchRatingsAndReviews`. -/
theorem handleHome_aggregation_failure_not_500 :
    ((handleHome rtTrivial [] 0 ⟨[], [], true⟩ none).1.status = 200) ∧
    (200 : Nat) ≠ 500 :=
  ⟨rfl, by decide⟩

/-- C8 (amended): whenever an exception escapes into the handler during
assembly of the GET / response (exceptions inside the aggregator are
swallowed there and never abort the request), the handler responds 500
with the fixed static error document; the response is one constant record
independent of the exception's message, which is logged only. -/
theorem handleHome_error_path (rt : Runtime) (cache : List (String × String))
    (now : Nat) (store : LICStore) (msg : String)
    (hmiss : mapGet cache (bucketKey now) = none) :
    (handleHome rt cache now store (some msg)).1
      = { status := 500, contentType := none, cacheControl := none,
          etag := none, body := errorHtml } := by
  rw [handleHome_miss_exn rt cache now store msg hmiss]

theorem handleHome_error_path_witness :
    (mapGet [] (bucketKey 7) = none) ∧
    ((handleHome rtTrivial [] 7 ⟨[5], [], false⟩ (some "boom")).1
      = { status := 500, contentType := none, cacheControl := none,
          etag := none, body := errorHtml }) :=
  ⟨rfl, handleHome_error_path rtTrivial [] 7 ⟨[5], [], false⟩ "boom" rfl⟩

/-- C9: the error path of the GET / handler leaves the response cache
unchanged (`cache.set` runs only on the successful render path), so a
later request in the same bucket renders fresh instead of serving the
error document. -/
theorem handleHome_error_cache_unchanged (rt : Runtime)
    (cache : List (String × String)) (now : Nat) (store : LICStore) (msg : String)
    (now₂ : Nat) (store₂ : LICStore)
    (hb : bucketKey now₂ = bucketKey now)
    (hmiss : mapGet cache (bucketKey now) = none) :
    ((handleHome rt cache now store (some msg)).2 = cache) ∧
    ((handleHome rt (handleHome rt cache now store (some msg)).2 now₂ store₂ none).1.status
      = 200) ∧
    ((handleHome rt (handleHome rt cache now store (some msg)).2 now₂ store₂ none).1.body
      = renderPage rt (fetchRatingsAndReviews store₂)) := by
  rw [handleHome_miss_exn rt cache now store msg hmiss]
  have hmiss₂ : mapGet cache (bucketKey now₂) = none := by
    rw [hb]
    exact hmiss
  rw [handleHome_miss_fresh rt cache now₂ store₂ hmiss₂]
  exact ⟨rfl, rfl, rfl⟩

theorem handleHome_error_cache_unchanged_witness :
    (bucketKey 0 = bucketKey 0) ∧ (mapGet [] (bucketKey 0) = none) ∧
    (((handleHome rtTrivial [] 0 ⟨[], [], false⟩ (some "boom")).2 = []) ∧
      ((handleHome rtTrivial (handleHome rtTrivial [] 0 ⟨[], [], false⟩ (some "boom")).2 0
          ⟨[5], [], false⟩ none).1.status = 200) ∧
      ((handleHome rtTrivial (handleHome rtTrivial [] 0 ⟨[], [], false⟩ (some "boom")).2 0
          ⟨[5], [], false⟩ none).1.body
        = renderPage rtTrivial (fetchRatingsAndReviews ⟨[5], [], false⟩))) :=
  ⟨rfl, rfl, handleHome_error_cache_unchanged rtTrivial [] 0 ⟨[], [], false⟩ "boom" 0
    ⟨[5], [], false⟩ rfl rfl⟩

/-- C10: POST /api/lic/ratings rejects with 400 — leaving the ratings
store unchanged — any body whose `userId` or `rating` is falsy: an absent
field, `userId = ""`, or `rating = 0`. -/
theorem postRatings_rejects_falsy (body : RatingBody) (db : List (String × Rat))
    (h : body.userId = none ∨ body.userId = some "" ∨
         body.rating = none ∨ body.rating = some 0) :
    postRatings body db = (400, db) := by
  obtain ⟨u, r⟩ := body
  rcases h with h | h | h | h
  · cases h
    cases r with
    | none => rfl
    | some q => rfl
  · cases h
    cases r with
    | none => rfl
    | some q =>
      show (if decide ("" = "") || decide (q = 0) then ((400 : Nat), db)
            else (200, upsertRating db "" q)) = (400, db)
      rw [decide_eq_true rfl, Bool.true_or, if_pos rfl]
  · cases h
    cases u with
    | none => rfl
    | some uid => rfl
  · cases h
    cases u with
    | none => rfl
    | some uid =>
      show (if decide (uid = "") || decide ((0 : Rat) = 0) then ((400 : Nat), db)
            else (200, upsertRating db uid 0)) = (400, db)
      rw [decide_eq_true rfl, Bool.or_true, if_pos rfl]

theorem postRatings_rejects_falsy_witness :
    ((⟨some "alice", some 0⟩ : RatingBody).userId = none ∨
      (⟨some "alice", some 0⟩ : RatingBody).userId = some "" ∨
      (⟨some "alice", some 0⟩ : RatingBody).rating = none ∨
      (⟨some "alice", some 0⟩ : RatingBody).rating = some 0) ∧
    postRatings ⟨some "alice", some 0⟩ [("bob", 5)] = (400, [("bob", 5)]) :=
  ⟨Or.inr (Or.inr (Or.inr rfl)),
    postRatings_rejects_falsy ⟨some "alice", some 0⟩ [("bob", 5)]
      (Or.inr (Or.inr (Or.inr rfl)))⟩
